import Mathlib

/-!
Shallow embedding of the xemu USB Xbox Live Communicator (XBLC) device,
`hw/xbox/xblc.c`.  The device bridges two isochronous USB endpoints to a
host audio backend (SDL audio streams).  Machine integers stay in `Nat`;
the one place where C unsigned wraparound matters (`p->iov.size - copied`
computed in unsigned arithmetic) carries an explicit `% 2 ^ 32`.
-/

namespace Xblc

/-! ## Constants from the source -/

def XBLC_EP_OUT : Nat := 0x04
def XBLC_EP_IN : Nat := 0x05
def XBLC_SET_SAMPLE_RATE : Nat := 0x00
def XBLC_SET_AGC : Nat := 0x01
def XBLC_MAX_PACKET : Nat := 48
def XBLC_QUEUE_SIZE_MS : Nat := 100
def XBLC_BYTES_PER_SAMPLE : Nat := 2
def XBLC_DEFAULT_SAMPLE_RATE : Nat := 16000

/-- USB token value for an IN (device-to-host) data packet. -/
def USB_TOKEN_IN : Nat := 0x69

/-- USB token value for an OUT (host-to-device) data packet. -/
def USB_TOKEN_OUT : Nat := 0xe1

/-- Request code `VendorInterfaceOutRequest` =
`(USB_DIR_OUT | USB_TYPE_VENDOR | USB_RECIP_INTERFACE) << 8`. -/
def VendorInterfaceOutRequest : Nat := 0x4100

def USB_REQ_SET_FEATURE : Nat := 0x03

/-- SDL3 constant for signed 16-bit little-endian PCM samples. -/
def SDL_AUDIO_S16LE : Nat := 0x8010

/-- Rate table `xblc_sample_rates` from the source. -/
def xblc_sample_rates : List Nat := [8000, 11025, 16000, 22050, 24000]

/-! ## Host audio backend (external collaborator)

Modelled from the spec: the host audio backend is an opaque capability
offering open/close/push/pull/available/clear/set-format on a directional
PCM stream; pulls and pushes return immediately with whatever is
available.  A stream is its identity (`id`), its current format, and its
buffered bytes. -/

structure SDL_AudioSpec where
  channels : Nat
  freq : Nat
  format : Nat
deriving DecidableEq

structure SDL_AudioStream where
  id : Nat
  channels : Nat
  freq : Nat
  format : Nat
  buf : List Nat
deriving DecidableEq

/-- Modelled from the spec: query of buffered byte count (always
non-negative here; the C error return `-1` has no counterpart in the
sequential model). -/
def SDL_GetAudioStreamAvailable (st : SDL_AudioStream) : Nat :=
  st.buf.length

/-- Modelled from the spec: discards all buffered audio, keeping the
stream's identity and format. -/
def SDL_ClearAudioStream (st : SDL_AudioStream) : SDL_AudioStream :=
  { st with buf := [] }

/-- Modelled from the spec: re-formats a stream in place — identity and
buffered audio are preserved. -/
def SDL_SetAudioStreamFormat (st : SDL_AudioStream) (spec : SDL_AudioSpec) :
    SDL_AudioStream :=
  { st with channels := spec.channels, freq := spec.freq, format := spec.format }

/-- Modelled from the spec: a pull returns immediately with up to `len`
bytes, whatever is available; returns the bytes and the drained stream. -/
def SDL_GetAudioStreamData (st : SDL_AudioStream) (len : Nat) :
    List Nat × SDL_AudioStream :=
  (st.buf.take len, { st with buf := st.buf.drop len })

/-- Modelled from the spec: a push appends the payload to the stream's
buffer and returns immediately. -/
def SDL_PutAudioStreamData (st : SDL_AudioStream) (data : List Nat) :
    SDL_AudioStream :=
  { st with buf := st.buf ++ data }

/-! ## Device state (`USBXBLCState`) -/

/-- Device state.  `dev` stands for the embedded generic `USBDevice`
section (opaque to this device's own logic); `chIn`/`chOut` are the
`s->in` / `s->out` stream handles (`none` = NULL). -/
structure USBXBLCState where
  dev : Nat
  device_index : Nat
  auto_gain_control : Nat
  sample_rate : Nat
  chIn : Option SDL_AudioStream
  chOut : Option SDL_AudioStream
deriving DecidableEq

/-! ## Transfers (`USBPacket`)

Modelled from the spec: a transfer is an isochronous packet with a
direction (`pid`), an endpoint, a byte buffer of `size` bytes (`payload`
carries the OUT data), plus the outcome the core writes back:
`usb_packet_copy` appends delivered bytes to `copiedData`, and
`usb_packet_skip` marks bytes as not transferred (`skipped`). -/

structure USBPacket where
  pid : Nat
  ep : Nat
  size : Nat
  payload : List Nat
  copiedData : List Nat
  skipped : Nat
deriving DecidableEq

/-- Modelled from the spec: `usb_packet_copy` delivers bytes into the
transfer. -/
def usb_packet_copy (p : USBPacket) (data : List Nat) : USBPacket :=
  { p with copiedData := p.copiedData ++ data }

/-- Modelled from the spec: `usb_packet_skip` marks `n` requested bytes as
not transferred. -/
def usb_packet_skip (p : USBPacket) (n : Nat) : USBPacket :=
  { p with skipped := p.skipped + n }

/-! ## Reset handler (`usb_xblc_handle_reset`, lines 153–165) -/

def usb_xblc_handle_reset (s : USBXBLCState) : USBXBLCState :=
  let s1 :=
    match s.chIn with
    | some st => { s with chIn := some (SDL_ClearAudioStream st) }
    | none => s
  match s1.chOut with
  | some st => { s1 with chOut := some (SDL_ClearAudioStream st) }
  | none => s1

/-! ## Rate change (`xblc_audio_stream_set_rate`, lines 167–182) -/

def xblc_audio_stream_set_rate (s : USBXBLCState) (sample_rate : Nat) :
    USBXBLCState :=
  let s1 := { s with sample_rate := sample_rate }
  let spec : SDL_AudioSpec := ⟨1, sample_rate, SDL_AUDIO_S16LE⟩
  let s2 :=
    match s1.chIn with
    | some st => { s1 with chIn := some (SDL_SetAudioStreamFormat st spec) }
    | none => s1
  match s2.chOut with
  | some st => { s2 with chOut := some (SDL_SetAudioStreamFormat st spec) }
  | none => s2

/-! ## Control handler (`usb_xblc_handle_control`, lines 184–216)

`descHandled` is the verdict of the external `usb_desc_handle_control`
collaborator (modelled from the spec: it reports whether it already
handled the request).  `stalled` records `p->status = USB_RET_STALL`;
`aborted` records a failed `assert` (QEMU builds with assertions enabled,
so a failed assertion aborts the process). -/

structure ControlResult where
  st : USBXBLCState
  stalled : Bool
  aborted : Bool
deriving DecidableEq

def usb_xblc_handle_control (s : USBXBLCState) (descHandled : Bool)
    (request value index : Nat) : ControlResult :=
  if descHandled then ⟨s, false, false⟩
  else if request = (VendorInterfaceOutRequest ||| USB_REQ_SET_FEATURE) then
    if index = XBLC_SET_SAMPLE_RATE then
      let rate := value % 256
      if rate < xblc_sample_rates.length then
        ⟨xblc_audio_stream_set_rate s (xblc_sample_rates.getD rate 0),
          false, false⟩
      else
        -- assert(rate < ARRAY_SIZE(xblc_sample_rates)) fails: process abort
        ⟨s, false, true⟩
    else if index = XBLC_SET_AGC then
      ⟨{ s with auto_gain_control := if value ≠ 0 then 1 else 0 }, false, false⟩
    else
      -- default: p->status = USB_RET_STALL; assert(!"USB stalled on request")
      ⟨s, true, true⟩
  else
    ⟨s, true, true⟩

/-! ## Data handler (`usb_xblc_handle_data`, lines 218–296)

The capture-direction copy loop is modelled with explicit fuel: a result
with `hung = true` means the fuel ran out, i.e. the C `while` loop did
not reach its exit condition within the given number of iterations.  The
handler invokes the loop with fuel `to_process + 1`; a separate theorem
shows this fuel is never exhausted. -/

structure LoopOut where
  st : SDL_AudioStream
  p : USBPacket
  copied : Nat
  hung : Bool
deriving DecidableEq

/-- Copy loop of the capture (IN) path, lines 257–268:
`while (copied < to_process)` pull `MIN(sizeof(packet), to_process)`
bytes (note: not `to_process - copied`) and deliver them via
`usb_packet_copy`. -/
def xblcPullLoop (fuel : Nat) (st : SDL_AudioStream) (p : USBPacket)
    (copied to_process : Nat) : LoopOut :=
  match fuel with
  | 0 => ⟨st, p, copied, true⟩
  | fuel + 1 =>
    if copied < to_process then
      let pulled := SDL_GetAudioStreamData st (min XBLC_MAX_PACKET to_process)
      xblcPullLoop fuel pulled.2 (usb_packet_copy p pulled.1)
        (copied + pulled.1.length) to_process
    else
      ⟨st, p, copied, false⟩

structure DataResult where
  st : USBXBLCState
  p : USBPacket
  hung : Bool
  aborted : Bool
deriving DecidableEq

def usb_xblc_handle_data (s : USBXBLCState) (p : USBPacket) : DataResult :=
  if p.pid = USB_TOKEN_IN then
    if p.ep ≠ XBLC_EP_IN then ⟨s, p, false, true⟩ -- assert(p->ep->nr == XBLC_EP_IN)
    else
      match s.chIn with
      | none => ⟨s, p, false, false⟩ -- break: leaves the switch, no skip marking
      | some st =>
        let available := SDL_GetAudioStreamAvailable st
        let max_queued_data :=
          s.sample_rate * XBLC_BYTES_PER_SAMPLE * XBLC_QUEUE_SIZE_MS / 1000
        let overflowed := max_queued_data < available
        let st1 := if overflowed then SDL_ClearAudioStream st else st
        let available1 := if overflowed then 0 else available
        let to_process := min p.size available1
        let out := xblcPullLoop (to_process + 1) st1 p 0 to_process
        -- to_process = p->iov.size - copied, computed in unsigned arithmetic
        -- and truncated to the uint32_t to_process
        let rem := (p.size + 2 ^ 32 - out.copied % 2 ^ 32) % 2 ^ 32
        let p2 := if 0 < rem then usb_packet_skip out.p rem else out.p
        ⟨{ s with chIn := some out.st }, p2, out.hung, false⟩
  else if p.pid = USB_TOKEN_OUT then
    if p.ep ≠ XBLC_EP_OUT then ⟨s, p, false, true⟩ -- assert(p->ep->nr == XBLC_EP_OUT)
    else
      match s.chOut with
      | none => ⟨s, p, false, false⟩
      | some st =>
        ⟨{ s with chOut := some (SDL_PutAudioStreamData st p.payload) },
          p, false, false⟩
  else
    ⟨s, p, false, true⟩ -- assert(!"Iso cannot report STALL/HALT")

/-! ## Channel lifecycle (`xblc_audio_channel_init`, lines 298–318)

`openResult` is the outcome of the external
`SDL_OpenAudioDeviceStream` call: `some i` is a freshly opened stream
handle with identity `i` (opened at the device's current format), `none`
is a failed open.  On failure the handle is left NULL and `errSet`
records that `error_setg` filled `errp`. -/

structure InitResult where
  st : USBXBLCState
  errSet : Bool
deriving DecidableEq

def xblc_audio_channel_init (s : USBXBLCState) (capture : Bool)
    (openResult : Option Nat) : InitResult :=
  let newCh : Option SDL_AudioStream :=
    openResult.map fun i => ⟨i, 1, s.sample_rate, SDL_AUDIO_S16LE, []⟩
  if capture then ⟨{ s with chIn := newCh }, openResult.isNone⟩
  else ⟨{ s with chOut := newCh }, openResult.isNone⟩

/-! ## Realize / unrealize (lines 320–341, 343–356) -/

structure RealizeResult where
  st : USBXBLCState
  warnings : Nat
  failed : Bool
deriving DecidableEq

/-- Realize, lines 320–341: null both handles, set the default rate,
then try to open each channel; each failure only produces a warning
(`warn_report_err`).  Realize itself never fails (`failed = false`:
the function never sets its own `errp`). -/
def usb_xbox_communicator_realize (s : USBXBLCState)
    (openIn openOut : Option Nat) : RealizeResult :=
  let s1 := { s with chIn := none, chOut := none,
                     sample_rate := XBLC_DEFAULT_SAMPLE_RATE }
  let r1 := xblc_audio_channel_init s1 true openIn
  let r2 := xblc_audio_channel_init r1.st false openOut
  ⟨r2.st, (if r1.errSet then 1 else 0) + (if r2.errSet then 1 else 0), false⟩

def usb_xbox_communicator_unrealize (s : USBXBLCState) : USBXBLCState :=
  { s with chIn := none, chOut := none }

/-! ## Migration (`usb_xblc_vmstate`, lines 371–378)

The VMState description of the source carries only the generic USB
device section (`VMSTATE_USB_DEVICE(dev, ...)`) followed by a `FIXME`
comment and the end-of-list marker; it registers no `post_load` hook. -/

/-- Names of the fields actually listed in `usb_xblc_vmstate`. -/
def usb_xblc_vmstate_fields : List String := ["dev"]

structure XBLCSnapshot where
  dev : Nat
deriving DecidableEq

def xblc_vmstate_save (s : USBXBLCState) : XBLCSnapshot :=
  ⟨s.dev⟩

/-- Loading restores exactly the listed fields into the (already
re-realized) device; `usb_xblc_vmstate` has no `post_load` hook, so
nothing further runs after the fields are read. -/
def xblc_vmstate_load (s : USBXBLCState) (snap : XBLCSnapshot) : USBXBLCState :=
  { s with dev := snap.dev }

/-- Snapshot round trip: save `s`, re-realize a fresh instance (the
framework re-creates the device and calls realize before loading), then
load the snapshot into it. -/
def xblc_migrate_roundtrip (s fresh : USBXBLCState)
    (openIn openOut : Option Nat) : USBXBLCState :=
  xblc_vmstate_load (usb_xbox_communicator_realize fresh openIn openOut).st
    (xblc_vmstate_save s)

/-! ## Channel-format invariant -/

/-- A channel handle is either NULL or an open stream whose format is
mono, 16-bit signed little-endian, at frequency `rate`. -/
def chOk (rate : Nat) (c : Option SDL_AudioStream) : Bool :=
  match c with
  | none => true
  | some st => st.channels == 1 && st.freq == rate && st.format == SDL_AUDIO_S16LE

/-- Invariant: both channel handles are NULL or bound to the device's
current sample rate. -/
def XBLCInv (s : USBXBLCState) : Bool :=
  chOk s.sample_rate s.chIn && chOk s.sample_rate s.chOut

/-! ## Helper lemmas -/

lemma reset_eq (s : USBXBLCState) :
    usb_xblc_handle_reset s =
      { s with chIn := s.chIn.map SDL_ClearAudioStream,
               chOut := s.chOut.map SDL_ClearAudioStream } := by
  obtain ⟨d, di, agc, sr, ci, co⟩ := s
  cases ci <;> cases co <;> rfl

lemma set_rate_eq (s : USBXBLCState) (r : Nat) :
    xblc_audio_stream_set_rate s r =
      { s with sample_rate := r,
               chIn := s.chIn.map
                 (fun st => SDL_SetAudioStreamFormat st ⟨1, r, SDL_AUDIO_S16LE⟩),
               chOut := s.chOut.map
                 (fun st => SDL_SetAudioStreamFormat st ⟨1, r, SDL_AUDIO_S16LE⟩) } := by
  obtain ⟨d, di, agc, sr, ci, co⟩ := s
  cases ci <;> cases co <;> rfl

lemma clear_idem (st : SDL_AudioStream) :
    SDL_ClearAudioStream (SDL_ClearAudioStream st) = SDL_ClearAudioStream st := rfl

lemma chOk_clear (r : Nat) (c : Option SDL_AudioStream) :
    chOk r (c.map SDL_ClearAudioStream) = chOk r c := by
  cases c <;> rfl

lemma chOk_setFormat (r : Nat) (c : Option SDL_AudioStream) :
    chOk r (c.map (fun st => SDL_SetAudioStreamFormat st ⟨1, r, SDL_AUDIO_S16LE⟩)) =
      true := by
  cases c <;> simp [chOk, SDL_SetAudioStreamFormat]

lemma set_rate_inv (s : USBXBLCState) (r : Nat) :
    XBLCInv (xblc_audio_stream_set_rate s r) = true := by
  rw [set_rate_eq]
  simp [XBLCInv, chOk_setFormat]

/-- The pull loop only drains the stream's buffer; identity and format
fields survive every iteration. -/
lemma xblcPullLoop_fields (fuel : Nat) :
    ∀ (st : SDL_AudioStream) (p : USBPacket) (copied to_process : Nat),
      (xblcPullLoop fuel st p copied to_process).st.id = st.id ∧
      (xblcPullLoop fuel st p copied to_process).st.channels = st.channels ∧
      (xblcPullLoop fuel st p copied to_process).st.freq = st.freq ∧
      (xblcPullLoop fuel st p copied to_process).st.format = st.format := by
  induction fuel with
  | zero => intro st p copied tp; exact ⟨rfl, rfl, rfl, rfl⟩
  | succ n ih =>
    intro st p copied tp
    rw [xblcPullLoop]
    by_cases h : copied < tp
    · simpa [h, SDL_GetAudioStreamData] using
        ih { st with buf := st.buf.drop (min XBLC_MAX_PACKET tp) }
          (usb_packet_copy p (st.buf.take (min XBLC_MAX_PACKET tp)))
          (copied + (st.buf.take (min XBLC_MAX_PACKET tp)).length) tp
    · simp [h]

/-- Termination of the pull loop: as long as the buffer still holds the
bytes the loop has left to reach its target, every iteration makes
progress, so `to_process - copied + 1` iterations suffice. -/
lemma xblcPullLoop_no_hang (fuel : Nat) :
    ∀ (st : SDL_AudioStream) (p : USBPacket) (copied to_process : Nat),
      to_process - copied < fuel →
      to_process - copied ≤ st.buf.length →
      (xblcPullLoop fuel st p copied to_process).hung = false := by
  induction fuel with
  | zero => intro st p copied tp h1 _; omega
  | succ n ih =>
    intro st p copied tp h1 h2
    rw [xblcPullLoop]
    by_cases h : copied < tp
    · simp only [h, if_true, SDL_GetAudioStreamData]
      apply ih
      · simp only [List.length_take]
        have hreq : 1 ≤ min XBLC_MAX_PACKET tp := by
          simp only [XBLC_MAX_PACKET]; omega
        omega
      · simp only [List.length_take, List.length_drop]
        omega
    · simp [h]

/-! ## Concrete instances used by closed theorems and witnesses -/

/-- A capture stream at 16000 Hz with an empty buffer. -/
def xblcStreamA : SDL_AudioStream := ⟨7, 1, 16000, SDL_AUDIO_S16LE, []⟩

/-- A playback stream at 16000 Hz with an empty buffer. -/
def xblcStreamB : SDL_AudioStream := ⟨8, 1, 16000, SDL_AUDIO_S16LE, []⟩

/-- A realized device at 16000 Hz with both channels open. -/
def xblcStateA : USBXBLCState := ⟨0, 0, 0, 16000, some xblcStreamA, some xblcStreamB⟩

/-- A capture stream holding 96 buffered bytes (well under the 3200-byte
overflow bound at 16000 Hz). -/
def xblcStream96 : SDL_AudioStream := ⟨7, 1, 16000, SDL_AUDIO_S16LE, List.replicate 96 3⟩

/-- A device whose capture channel holds 96 buffered bytes. -/
def xblcState96 : USBXBLCState := ⟨0, 0, 0, 16000, some xblcStream96, none⟩

/-- A device whose capture channel is NULL. -/
def xblcStateNull : USBXBLCState := ⟨0, 0, 0, 16000, none, none⟩

/-- An IN (capture-direction) transfer requesting 50 bytes — larger than
the 48-byte maximum packet size, not a multiple of it. -/
def xblcPacket50 : USBPacket := ⟨USB_TOKEN_IN, XBLC_EP_IN, 50, [], [], 0⟩

/-- An IN (capture-direction) transfer requesting 48 bytes. -/
def xblcPacket48 : USBPacket := ⟨USB_TOKEN_IN, XBLC_EP_IN, 48, [], [], 0⟩

/-- An unconfigured device as the framework constructs it. -/
def xblcFreshState : USBXBLCState := ⟨0, 0, 0, 0, none, none⟩

/-- Realize the fresh device (both host opens succeed). -/
def xblcRealizedState : USBXBLCState :=
  (usb_xbox_communicator_realize xblcFreshState (some 1) (some 2)).st

/-- The realized device after the guest sets rate index 3 (22050 Hz). -/
def xblcState22050 : USBXBLCState :=
  (usb_xblc_handle_control xblcRealizedState false
    (VendorInterfaceOutRequest ||| USB_REQ_SET_FEATURE) 3 XBLC_SET_SAMPLE_RATE).st

/-- The state observed after snapshotting `xblcState22050`, destroying the
device, re-realizing a fresh instance and loading the snapshot. -/
def xblcRestoredState : USBXBLCState :=
  xblc_migrate_roundtrip xblcState22050 xblcFreshState (some 3) (some 4)

/-! ## Claim theorems -/

/-- C1: the claim says an unsupported control request, or a
set-sample-rate with rate index outside 0–4, stalls the transfer and
never aborts the process.  The code refutes this: rate index 5 fails
`assert(rate < ARRAY_SIZE(xblc_sample_rates))` and aborts without ever
stalling, and an unsupported request (here vendor request 0x4101) sets
`USB_RET_STALL` but then unconditionally aborts on
`assert(!"USB stalled on request")`.  Device state is untouched in both
cases, but the process dies. -/
theorem usb_xblc_handle_control_aborts_on_bad_request :
    (usb_xblc_handle_control xblcStateA false
        (VendorInterfaceOutRequest ||| USB_REQ_SET_FEATURE) 5
        XBLC_SET_SAMPLE_RATE).aborted = true ∧
    (usb_xblc_handle_control xblcStateA false
        (VendorInterfaceOutRequest ||| USB_REQ_SET_FEATURE) 5
        XBLC_SET_SAMPLE_RATE).stalled = false ∧
    (usb_xblc_handle_control xblcStateA false
        (VendorInterfaceOutRequest ||| USB_REQ_SET_FEATURE) 5
        XBLC_SET_SAMPLE_RATE).st = xblcStateA ∧
    (usb_xblc_handle_control xblcStateA false 0x4101 0 0).aborted = true ∧
    (usb_xblc_handle_control xblcStateA false 0x4101 0 0).stalled = true ∧
    (usb_xblc_handle_control xblcStateA false 0x4101 0 0).st = xblcStateA := by
  decide

/-- C3: the claim says a capture-direction transfer copies exactly
`min(requested, available)` bytes and marks the rest skipped, with
`copied + skipped = requested`.  The code refutes this for a transfer
larger than one maximum packet: with 50 bytes requested and 96 available
the loop requests `MIN(48, to_process)` (not `to_process - copied`) on
every iteration, copying 96 bytes instead of 50, after which the
unsigned computation `p->iov.size - copied` wraps to `2^32 - 46` and
that amount is marked skipped. -/
theorem usb_xblc_handle_data_copies_past_target :
    min xblcPacket50.size (SDL_GetAudioStreamAvailable xblcStream96) = 50 ∧
    (usb_xblc_handle_data xblcState96 xblcPacket50).p.copiedData.length = 96 ∧
    (usb_xblc_handle_data xblcState96 xblcPacket50).p.skipped = 4294967250 := by
  decide

/-- C5 counterexample: with a NULL capture channel and a 48-byte IN
request, the handler leaves the switch before the `usb_packet_skip`
call, so zero bytes are marked untransferred — not the whole requested
length as the claim states. -/
theorem usb_xblc_handle_data_null_channel_skips_nothing :
    (usb_xblc_handle_data xblcStateNull xblcPacket48).p.skipped = 0 ∧
    (usb_xblc_handle_data xblcStateNull xblcPacket48).p.skipped ≠
      xblcPacket48.size := by
  decide

/-- C5 amended: with a NULL capture channel the handler returns at once:
zero bytes are copied, zero bytes are marked skipped, and neither the
device state nor the transfer changes in any way. -/
theorem usb_xblc_handle_data_null_channel_noop (s : USBXBLCState) (p : USBPacket)
    (hin : s.chIn = none) (hpid : p.pid = USB_TOKEN_IN) (hep : p.ep = XBLC_EP_IN) :
    usb_xblc_handle_data s p = ⟨s, p, false, false⟩ := by
  simp [usb_xblc_handle_data, hin, hpid, hep]

/-- Witness for the amended C5 at a concrete input. -/
theorem usb_xblc_handle_data_null_channel_noop_witness :
    xblcStateNull.chIn = none ∧
    usb_xblc_handle_data xblcStateNull xblcPacket48 =
      ⟨xblcStateNull, xblcPacket48, false, false⟩ :=
  ⟨by decide,
    usb_xblc_handle_data_null_channel_noop xblcStateNull xblcPacket48
      (by decide) (by decide) (by decide)⟩

/-- C8: the claim says the vmstate persists device index and sample rate
and a post-load step reapplies the restored rate.  The code refutes
this: `usb_xblc_vmstate` lists only the generic USB device section
(followed by a `FIXME`), has no post-load hook, and a
set-22050/snapshot/restore round trip leaves the restored device — and
both of its channels — at the default 16000 Hz. -/
theorem usb_xblc_vmstate_does_not_restore_rate :
    xblcState22050.sample_rate = 22050 ∧
    xblcRestoredState.sample_rate = 16000 ∧
    xblcRestoredState.chIn.map SDL_AudioStream.freq = some 16000 ∧
    xblcRestoredState.chOut.map SDL_AudioStream.freq = some 16000 ∧
    "sample_rate" ∉ usb_xblc_vmstate_fields ∧
    "device_index" ∉ usb_xblc_vmstate_fields := by
  decide

/-- C2: when the capture channel's available byte count exceeds
`sample_rate * 2 * 100 / 1000` (100 ms of mono 16-bit audio), the
handler clears the whole channel buffer and treats available as 0, so no
bytes at all are copied into the transfer. -/
theorem usb_xblc_handle_data_overflow_clears (s : USBXBLCState)
    (st : SDL_AudioStream) (p : USBPacket) (hin : s.chIn = some st)
    (hpid : p.pid = USB_TOKEN_IN) (hep : p.ep = XBLC_EP_IN)
    (hover : s.sample_rate * XBLC_BYTES_PER_SAMPLE * XBLC_QUEUE_SIZE_MS / 1000 <
      SDL_GetAudioStreamAvailable st) :
    (usb_xblc_handle_data s p).st.chIn = some (SDL_ClearAudioStream st) ∧
    (usb_xblc_handle_data s p).p.copiedData = p.copiedData := by
  constructor
  · simp [usb_xblc_handle_data, hin, hpid, hep, hover, xblcPullLoop]
  · simp only [usb_xblc_handle_data, hin, hpid, hep, hover, if_true, Nat.min_zero,
      xblcPullLoop, Nat.lt_irrefl, ne_eq, not_true_eq_false, if_false, ite_false]
    split <;> simp [usb_packet_skip]

/-- Witness for C2: one buffered byte exceeds the 100 ms bound when that
bound computes to 0 bytes; the channel is cleared and the 48-byte
request copies nothing. -/
theorem usb_xblc_handle_data_overflow_clears_witness :
    (1 * XBLC_BYTES_PER_SAMPLE * XBLC_QUEUE_SIZE_MS / 1000 <
      SDL_GetAudioStreamAvailable ⟨7, 1, 1, SDL_AUDIO_S16LE, [9]⟩) ∧
    (usb_xblc_handle_data ⟨0, 0, 0, 1, some ⟨7, 1, 1, SDL_AUDIO_S16LE, [9]⟩, none⟩
        xblcPacket48).st.chIn =
      some (SDL_ClearAudioStream ⟨7, 1, 1, SDL_AUDIO_S16LE, [9]⟩) ∧
    (usb_xblc_handle_data ⟨0, 0, 0, 1, some ⟨7, 1, 1, SDL_AUDIO_S16LE, [9]⟩, none⟩
        xblcPacket48).p.copiedData = xblcPacket48.copiedData := by
  refine ⟨by decide, ?_, ?_⟩
  · exact (usb_xblc_handle_data_overflow_clears _ _ _ rfl (by decide) (by decide)
      (by decide)).1
  · exact (usb_xblc_handle_data_overflow_clears _ _ _ rfl (by decide) (by decide)
      (by decide)).2

/-- C4: the capture copy loop always terminates: the handler's loop,
given fuel `to_process + 1`, reaches its exit condition before the fuel
runs out (`hung = false` on every input), because as long as the target
is not reached the stream still holds bytes and every pull makes
progress. -/
theorem usb_xblc_handle_data_loop_terminates (s : USBXBLCState) (p : USBPacket) :
    (usb_xblc_handle_data s p).hung = false := by
  simp only [usb_xblc_handle_data]
  split
  · split
    · rfl
    · rcases hin : s.chIn with _ | st
      · rfl
      · simp only []
        by_cases hov : s.sample_rate * XBLC_BYTES_PER_SAMPLE *
            XBLC_QUEUE_SIZE_MS / 1000 < SDL_GetAudioStreamAvailable st
        · simp only [hov, if_true, Nat.min_zero]
          apply xblcPullLoop_no_hang <;> omega
        · simp only [hov, if_false]
          apply xblcPullLoop_no_hang
          · omega
          · simp only [SDL_GetAudioStreamAvailable]
            omega
  · split
    · split
      · rfl
      · rcases s.chOut with _ | st <;> rfl
    · rfl

/-- C6: a set-feature request with index 0 and in-range rate index sets
the device's sample rate to the corresponding table entry and
re-formats each non-null channel in place to mono/S16LE at that
frequency; channel identities (and buffered audio) are untouched. -/
theorem usb_xblc_handle_control_set_rate (s : USBXBLCState) (value : Nat)
    (h : value % 256 < 5) :
    usb_xblc_handle_control s false
        (VendorInterfaceOutRequest ||| USB_REQ_SET_FEATURE) value
        XBLC_SET_SAMPLE_RATE =
      ⟨{ s with
           sample_rate := xblc_sample_rates.getD (value % 256) 0,
           chIn := s.chIn.map (fun st => SDL_SetAudioStreamFormat st
             ⟨1, xblc_sample_rates.getD (value % 256) 0, SDL_AUDIO_S16LE⟩),
           chOut := s.chOut.map (fun st => SDL_SetAudioStreamFormat st
             ⟨1, xblc_sample_rates.getD (value % 256) 0, SDL_AUDIO_S16LE⟩) },
        false, false⟩ ∧
    (usb_xblc_handle_control s false
        (VendorInterfaceOutRequest ||| USB_REQ_SET_FEATURE) value
        XBLC_SET_SAMPLE_RATE).st.chIn.map SDL_AudioStream.id =
      s.chIn.map SDL_AudioStream.id ∧
    (usb_xblc_handle_control s false
        (VendorInterfaceOutRequest ||| USB_REQ_SET_FEATURE) value
        XBLC_SET_SAMPLE_RATE).st.chOut.map SDL_AudioStream.id =
      s.chOut.map SDL_AudioStream.id ∧
    (usb_xblc_handle_control s false
        (VendorInterfaceOutRequest ||| USB_REQ_SET_FEATURE) value
        XBLC_SET_SAMPLE_RATE).st.chIn.map SDL_AudioStream.buf =
      s.chIn.map SDL_AudioStream.buf ∧
    (usb_xblc_handle_control s false
        (VendorInterfaceOutRequest ||| USB_REQ_SET_FEATURE) value
        XBLC_SET_SAMPLE_RATE).st.chOut.map SDL_AudioStream.buf =
      s.chOut.map SDL_AudioStream.buf := by
  have hlen : value % 256 < xblc_sample_rates.length := by
    simpa [xblc_sample_rates] using h
  have hmain : usb_xblc_handle_control s false
      (VendorInterfaceOutRequest ||| USB_REQ_SET_FEATURE) value
      XBLC_SET_SAMPLE_RATE =
      ⟨xblc_audio_stream_set_rate s (xblc_sample_rates.getD (value % 256) 0),
        false, false⟩ := by
    simp [usb_xblc_handle_control, hlen]
  rw [hmain, set_rate_eq]
  refine ⟨rfl, ?_, ?_, ?_, ?_⟩ <;>
    cases s.chIn <;> cases s.chOut <;> rfl

/-- Witness for C6 at rate index 3: a device with both channels at
16000 Hz moves to 22050 Hz, both channels re-formatted in place. -/
theorem usb_xblc_handle_control_set_rate_witness :
    (3 : Nat) % 256 < 5 ∧
    usb_xblc_handle_control xblcStateA false
        (VendorInterfaceOutRequest ||| USB_REQ_SET_FEATURE) 3
        XBLC_SET_SAMPLE_RATE =
      ⟨{ xblcStateA with
           sample_rate := xblc_sample_rates.getD (3 % 256) 0,
           chIn := xblcStateA.chIn.map (fun st => SDL_SetAudioStreamFormat st
             ⟨1, xblc_sample_rates.getD (3 % 256) 0, SDL_AUDIO_S16LE⟩),
           chOut := xblcStateA.chOut.map (fun st => SDL_SetAudioStreamFormat st
             ⟨1, xblc_sample_rates.getD (3 % 256) 0, SDL_AUDIO_S16LE⟩) },
        false, false⟩ :=
  ⟨by decide, (usb_xblc_handle_control_set_rate xblcStateA 3 (by decide)).1⟩

/-! ## Reset helper lemmas -/

lemma reset_idem (s : USBXBLCState) :
    usb_xblc_handle_reset (usb_xblc_handle_reset s) = usb_xblc_handle_reset s := by
  obtain ⟨d, di, agc, sr, ci, co⟩ := s
  cases ci <;> cases co <;> rfl

lemma reset_iterate (s : USBXBLCState) (n : Nat) (h : 0 < n) :
    usb_xblc_handle_reset^[n] s = usb_xblc_handle_reset s := by
  induction n with
  | zero => omega
  | succ m ih =>
    rcases Nat.eq_zero_or_pos m with h0 | hm
    · subst h0; rfl
    · rw [Function.iterate_succ_apply', ih hm, reset_idem]

/-- C7: any positive number of consecutive resets clears the buffered
audio of each non-null channel (expressed by `SDL_ClearAudioStream`,
which empties the buffer and keeps identity and format) and changes
nothing else: sample rate, AGC flag, device index, generic device
section and both channel handles are as before. -/
theorem usb_xblc_handle_reset_only_clears (s : USBXBLCState) (n : Nat)
    (h : 0 < n) :
    (usb_xblc_handle_reset^[n] s).sample_rate = s.sample_rate ∧
    (usb_xblc_handle_reset^[n] s).auto_gain_control = s.auto_gain_control ∧
    (usb_xblc_handle_reset^[n] s).device_index = s.device_index ∧
    (usb_xblc_handle_reset^[n] s).dev = s.dev ∧
    (usb_xblc_handle_reset^[n] s).chIn = s.chIn.map SDL_ClearAudioStream ∧
    (usb_xblc_handle_reset^[n] s).chOut = s.chOut.map SDL_ClearAudioStream := by
  rw [reset_iterate s n h, reset_eq]
  exact ⟨rfl, rfl, rfl, rfl, rfl, rfl⟩

/-- Witness for C7: two consecutive resets on a device with buffered
audio in both channels. -/
theorem usb_xblc_handle_reset_only_clears_witness :
    0 < 2 ∧
    ((usb_xblc_handle_reset^[2] xblcState96).sample_rate = xblcState96.sample_rate ∧
    (usb_xblc_handle_reset^[2] xblcState96).auto_gain_control =
      xblcState96.auto_gain_control ∧
    (usb_xblc_handle_reset^[2] xblcState96).device_index = xblcState96.device_index ∧
    (usb_xblc_handle_reset^[2] xblcState96).dev = xblcState96.dev ∧
    (usb_xblc_handle_reset^[2] xblcState96).chIn =
      xblcState96.chIn.map SDL_ClearAudioStream ∧
    (usb_xblc_handle_reset^[2] xblcState96).chOut =
      xblcState96.chOut.map SDL_ClearAudioStream) :=
  ⟨by decide, usb_xblc_handle_reset_only_clears xblcState96 2 (by decide)⟩

/-- C9: realize always succeeds, sets the default 16000 Hz rate, and
opens each channel at that rate on a best-effort basis: a failed open
leaves that handle NULL and produces exactly one warning per failed
channel; a successful open yields a fresh mono/S16LE stream at
16000 Hz. -/
theorem usb_xbox_communicator_realize_best_effort (s : USBXBLCState)
    (openIn openOut : Option Nat) :
    (usb_xbox_communicator_realize s openIn openOut).failed = false ∧
    (usb_xbox_communicator_realize s openIn openOut).st.sample_rate =
      XBLC_DEFAULT_SAMPLE_RATE ∧
    (usb_xbox_communicator_realize s openIn openOut).st.chIn =
      openIn.map (fun i => ⟨i, 1, XBLC_DEFAULT_SAMPLE_RATE, SDL_AUDIO_S16LE, []⟩) ∧
    (usb_xbox_communicator_realize s openIn openOut).st.chOut =
      openOut.map (fun i => ⟨i, 1, XBLC_DEFAULT_SAMPLE_RATE, SDL_AUDIO_S16LE, []⟩) ∧
    (usb_xbox_communicator_realize s openIn openOut).warnings =
      (if openIn = none then 1 else 0) + (if openOut = none then 1 else 0) := by
  cases openIn <;> cases openOut <;>
    simp [usb_xbox_communicator_realize, xblc_audio_channel_init]

/-! ## Invariant preservation helper lemmas -/

lemma realize_inv (s : USBXBLCState) (openIn openOut : Option Nat) :
    XBLCInv (usb_xbox_communicator_realize s openIn openOut).st = true := by
  cases openIn <;> cases openOut <;>
    simp [usb_xbox_communicator_realize, xblc_audio_channel_init, XBLCInv, chOk]

lemma reset_inv (s : USBXBLCState) : XBLCInv (usb_xblc_handle_reset s) = XBLCInv s := by
  rw [reset_eq]
  simp [XBLCInv, chOk_clear]

lemma control_inv (s : USBXBLCState) (dh : Bool) (req v ix : Nat)
    (h : XBLCInv s = true) :
    XBLCInv (usb_xblc_handle_control s dh req v ix).st = true := by
  simp only [usb_xblc_handle_control]
  split
  · exact h
  · split
    · split
      · split
        · exact set_rate_inv s _
        · exact h
      · split
        · simpa [XBLCInv] using h
        · exact h
    · exact h

lemma chOk_some (r : Nat) (st : SDL_AudioStream) :
    chOk r (some st) =
      (st.channels == 1 && st.freq == r && st.format == SDL_AUDIO_S16LE) := rfl

lemma data_inv (s : USBXBLCState) (p : USBPacket) :
    XBLCInv (usb_xblc_handle_data s p).st = XBLCInv s := by
  simp only [usb_xblc_handle_data]
  split
  · split
    · rfl
    · rcases hin : s.chIn with _ | st
      · rfl
      · by_cases hov : s.sample_rate * XBLC_BYTES_PER_SAMPLE *
            XBLC_QUEUE_SIZE_MS / 1000 < SDL_GetAudioStreamAvailable st
        · simp only [hov, if_true, Nat.min_zero]
          obtain ⟨_, hch, hfr, hfm⟩ :=
            xblcPullLoop_fields (0 + 1) (SDL_ClearAudioStream st) p 0 0
          dsimp only [XBLCInv]
          rw [hin, chOk_some, chOk_some, hch, hfr, hfm]
          rfl
        · simp only [hov, if_false]
          obtain ⟨_, hch, hfr, hfm⟩ :=
            xblcPullLoop_fields
              (min p.size (SDL_GetAudioStreamAvailable st) + 1) st p 0
              (min p.size (SDL_GetAudioStreamAvailable st))
          dsimp only [XBLCInv]
          rw [hin, chOk_some, chOk_some, hch, hfr, hfm]
  · split
    · split
      · rfl
      · rcases hout : s.chOut with _ | st
        · rfl
        · simp [XBLCInv, chOk, SDL_PutAudioStreamData, hout]
    · rfl

lemma unrealize_inv (s : USBXBLCState) :
    XBLCInv (usb_xbox_communicator_unrealize s) = true := by
  simp [usb_xbox_communicator_unrealize, XBLCInv, chOk]

/-- C10: every operation preserves the invariant that each channel
handle is NULL or an open stream in mono/S16LE format at the device's
current sample rate; realize and unrealize establish it outright, and a
sample-rate change re-formats every non-null channel within the same
operation. -/
theorem xblc_operations_preserve_format_invariant (s : USBXBLCState)
    (openIn openOut : Option Nat) (dh : Bool) (req v ix : Nat) (p : USBPacket)
    (h : XBLCInv s = true) :
    XBLCInv (usb_xbox_communicator_realize s openIn openOut).st = true ∧
    XBLCInv (usb_xblc_handle_reset s) = true ∧
    XBLCInv (usb_xblc_handle_control s dh req v ix).st = true ∧
    XBLCInv (usb_xblc_handle_data s p).st = true ∧
    XBLCInv (usb_xbox_communicator_unrealize s) = true :=
  ⟨realize_inv s openIn openOut,
    by rw [reset_inv]; exact h,
    control_inv s dh req v ix h,
    by rw [data_inv]; exact h,
    unrealize_inv s⟩

/-- Witness for C10 on a concrete realized device, exercising a
set-sample-rate control request and a 48-byte capture transfer. -/
theorem xblc_operations_preserve_format_invariant_witness :
    XBLCInv xblcState96 = true ∧
    (XBLCInv (usb_xbox_communicator_realize xblcState96 (some 1) none).st = true ∧
    XBLCInv (usb_xblc_handle_reset xblcState96) = true ∧
    XBLCInv (usb_xblc_handle_control xblcState96 false
      (VendorInterfaceOutRequest ||| USB_REQ_SET_FEATURE) 3
      XBLC_SET_SAMPLE_RATE).st = true ∧
    XBLCInv (usb_xblc_handle_data xblcState96 xblcPacket48).st = true ∧
    XBLCInv (usb_xbox_communicator_unrealize xblcState96) = true) :=
  ⟨by decide,
    xblc_operations_preserve_format_invariant xblcState96 (some 1) none false
      (VendorInterfaceOutRequest ||| USB_REQ_SET_FEATURE) 3 XBLC_SET_SAMPLE_RATE
      xblcPacket48 (by decide)⟩

end Xblc
